import Mathlib

set_option maxRecDepth 8192

/-!
Verification of the logical core of `src/rp.py` (class `DiscordRPApp`,
second copy, lines ≈1020–1260): the payload-mapping step of
`update_presence`, the `disconnect` lifecycle, and the preset
save/load/apply round trip.

The tkinter entry widgets are modelled as the string they hold, the
`BooleanVar` / `StringVar` as their values, and the presence-client
handle `self.rpc` as `Option Unit` (present / absent).  Calls into the
external library (`rpc.update`, `rpc.close`) are modelled by the result
the embedded function returns; dialogs (`messagebox.*`) are modelled by
the outcome constructors.
-/

/-- Python `str.strip()` on a character list: drop whitespace from both
ends. -/
def pyStripList (l : List Char) : List Char :=
  ((l.dropWhile Char.isWhitespace).reverse.dropWhile Char.isWhitespace).reverse

/-- Python `str.strip()`. -/
def pyStrip (s : String) : String := ⟨pyStripList s.data⟩

/-- Python truthiness test used throughout the source: a field is
"blank" when it is empty after stripping whitespace. -/
def pyBlank (s : String) : Bool := pyStrip s = ""

/-- Python string slicing `s[:n]`: the first `n` code points of `s`. -/
def pyTake (n : Nat) (s : String) : String := ⟨s.data.take n⟩

/-- Digit run of a Python integer literal: nonempty decimal digits with
single underscores allowed only between digits.  `prev` records whether
the previous character was a digit. -/
def pyIntDigits : Bool → List Char → Bool
  | prev, [] => prev
  | prev, c :: rest =>
    if c = '_' then
      prev && (match rest with | [] => false | d :: _ => d.isDigit)
        && pyIntDigits false rest
    else
      c.isDigit && pyIntDigits true rest

/-- Numeric value of a digit run, skipping underscores. -/
def pyDigitsVal (l : List Char) : Nat :=
  l.foldl (fun acc c => if c = '_' then acc else acc * 10 + (c.toNat - 48)) 0

/-- Python `int(s)` on a string: strips whitespace, allows one sign, and
requires a digit run; returns `none` where CPython raises `ValueError`. -/
def pyInt (s : String) : Option Int :=
  let cs := (pyStrip s).data
  match cs with
  | '+' :: rest => if pyIntDigits false rest then some (pyDigitsVal rest) else none
  | '-' :: rest => if pyIntDigits false rest then some (-(pyDigitsVal rest : Int)) else none
  | rest => if pyIntDigits false rest then some (pyDigitsVal rest) else none

/-- One button of the presence payload: `{"label": ..., "url": ...}`. -/
structure RPButton where
  label : String
  url : String
deriving Repr, DecidableEq

/-- The `kwargs` dictionary handed to `self.rpc.update(**kwargs)`:
each optional field is the corresponding dictionary key. -/
structure Payload where
  details : Option String := none
  state : Option String := none
  large_image : Option String := none
  large_text : Option String := none
  small_image : Option String := none
  small_text : Option String := none
  party_size : Option (Int × Int) := none
  start : Option Nat := none
  end_ts : Option Nat := none
  buttons : Option (List RPButton) := none
deriving Repr, DecidableEq

/-- The mutable state of `DiscordRPApp` that the verified methods read
and write: the thirteen text-entry widgets, the two timestamp variables,
and the session fields `connected`, `rpc`, `running`, `start_timestamp`. -/
structure AppState where
  client_id : String := ""
  details : String := ""
  state : String := ""
  large_key : String := ""
  large_text : String := ""
  small_key : String := ""
  small_text : String := ""
  button1_text : String := ""
  button1_url : String := ""
  button2_text : String := ""
  button2_url : String := ""
  party_size : String := ""
  party_max : String := ""
  show_timestamp : Bool := false
  timestamp_type : String := "elapsed"
  connected : Bool := false
  rpc : Option Unit := none
  running : Bool := false
  start_timestamp : Nat := 0
deriving Repr, DecidableEq

/-- Outcome of `update_presence`:
`notConnected` is the guard branch (warning dialog, early return);
`invalidParty` is the `ValueError` handler (warning dialog, early
return); `sent p` means `self.rpc.update(**p)` was invoked with the
built payload `p`.  Only `sent` reaches the external client. -/
inductive UpdateResult where
  | notConnected
  | invalidParty
  | sent (p : Payload)
deriving Repr, DecidableEq

/-- The `buttons` list built by `update_presence` (src/rp.py:1123–1129):
one entry per slot whose label and URL are both non-blank, label
stripped then truncated to 32 characters, URL stripped. -/
def updButtons (s : AppState) : List RPButton :=
  (if ¬ pyBlank s.button1_text ∧ ¬ pyBlank s.button1_url then
    [⟨pyTake 32 (pyStrip s.button1_text), pyStrip s.button1_url⟩] else []) ++
  (if ¬ pyBlank s.button2_text ∧ ¬ pyBlank s.button2_url then
    [⟨pyTake 32 (pyStrip s.button2_text), pyStrip s.button2_url⟩] else [])

/-- `DiscordRPApp.update_presence` (src/rp.py:1086–1137), with
`time.time()` passed in as `now`.  Builds `kwargs` field by field in
source order; the party block sits in a `try/except ValueError` whose
handler returns before anything is sent. -/
def update_presence (s : AppState) (now : Nat) : UpdateResult :=
  if ¬ s.connected ∨ s.rpc = none then .notConnected
  else
    let base : Payload :=
      { details := if ¬ pyBlank s.details then some (pyStrip s.details) else none
        state := if ¬ pyBlank s.state then some (pyStrip s.state) else none
        large_image := if ¬ pyBlank s.large_key then some (pyStrip s.large_key) else none
        large_text :=
          if ¬ pyBlank s.large_key ∧ ¬ pyBlank s.large_text then some (pyStrip s.large_text) else none
        small_image := if ¬ pyBlank s.small_key then some (pyStrip s.small_key) else none
        small_text :=
          if ¬ pyBlank s.small_key ∧ ¬ pyBlank s.small_text then some (pyStrip s.small_text) else none }
    let party? : Option (Option (Int × Int)) :=
      if ¬ pyBlank s.party_size ∧ ¬ pyBlank s.party_max then
        match pyInt s.party_size, pyInt s.party_max with
        | some a, some b => some (some (a, b))
        | _, _ => none
      else some none
    match party? with
    | none => .invalidParty
    | some party =>
      let withTs : Payload :=
        if s.show_timestamp then
          if s.timestamp_type = "elapsed" then
            { base with party_size := party, start := some s.start_timestamp }
          else
            { base with party_size := party, end_ts := some (now + 3600) }
        else { base with party_size := party }
      .sent (if (updButtons s).isEmpty then withTs
             else { withTs with buttons := some (updButtons s) })

example :
    update_presence
      { details := " Playing ", state := "Solo", party_size := "2", party_max := "5",
        show_timestamp := false, connected := true, rpc := some () } 0 =
    .sent { details := some "Playing", state := some "Solo", party_size := some (2, 5) } := by
  decide

example :
    update_presence
      { party_size := "2", party_max := "", connected := true, rpc := some () } 0 =
    .sent { } := by decide

example :
    update_presence
      { party_size := "2", party_max := "x", connected := true, rpc := some () } 0 =
    .invalidParty := by decide

/-- Outcome of `disconnect`: `ok` is the normal path ending in the
"Rich Presence stopped" info dialog; `errorShown e` is the
`except Exception` handler, which shows an error dialog and returns
normally (the exception is not re-raised to the caller). -/
inductive DisconnectOutcome where
  | ok
  | errorShown (msg : String)
deriving Repr, DecidableEq

/-- `DiscordRPApp.disconnect` (src/rp.py:1062–1084).  `closeThrows`
models whether the external `self.rpc.close()` raises when it is
actually invoked.  The `try` body first sets `running = False`; the
close call runs only when `self.rpc` is set and `self.connected`; when
it raises, control jumps to the handler before `connected`/`rpc` are
reassigned, so those fields keep their old values. -/
def disconnect (s : AppState) (closeThrows : Bool) : AppState × DisconnectOutcome :=
  let s1 := { s with running := false }
  if s1.rpc ≠ none ∧ s1.connected then
    if closeThrows then (s1, .errorShown "close failed")
    else ({ s1 with connected := false, rpc := none }, .ok)
  else ({ s1 with connected := false, rpc := none }, .ok)

/-- A stored preset dictionary as produced by `json.load`: any subset of
the fifteen keys written by `get_current_config` may be present, each
with the value type `get_current_config` stores under that key. -/
structure PresetDict where
  client_id : Option String := none
  details : Option String := none
  state : Option String := none
  large_key : Option String := none
  large_text : Option String := none
  small_key : Option String := none
  small_text : Option String := none
  button1_text : Option String := none
  button1_url : Option String := none
  button2_text : Option String := none
  button2_url : Option String := none
  party_size : Option String := none
  party_max : Option String := none
  show_timestamp : Option Bool := none
  timestamp_type : Option String := none
deriving Repr, DecidableEq

/-- `DiscordRPApp.get_current_config` (src/rp.py:1186–1204): snapshots
the thirteen entry widgets verbatim plus the two timestamp variables
into a dictionary (every key present). -/
def get_current_config (s : AppState) : PresetDict :=
  { client_id := some s.client_id
    details := some s.details
    state := some s.state
    large_key := some s.large_key
    large_text := some s.large_text
    small_key := some s.small_key
    small_text := some s.small_text
    button1_text := some s.button1_text
    button1_url := some s.button1_url
    button2_text := some s.button2_text
    button2_url := some s.button2_url
    party_size := some s.party_size
    party_max := some s.party_max
    show_timestamp := some s.show_timestamp
    timestamp_type := some s.timestamp_type }

/-- `DiscordRPApp.apply_config` (src/rp.py:1206–1230): for each entry
widget, delete its contents and insert `config.get(key, '')`; then
`show_timestamp.set(config.get('show_timestamp', False))` and
`timestamp_type.set(config.get('timestamp_type', 'elapsed'))`.
Session fields are untouched. -/
def apply_config (s : AppState) (config : PresetDict) : AppState :=
  { s with
    client_id := config.client_id.getD ""
    details := config.details.getD ""
    state := config.state.getD ""
    large_key := config.large_key.getD ""
    large_text := config.large_text.getD ""
    small_key := config.small_key.getD ""
    small_text := config.small_text.getD ""
    button1_text := config.button1_text.getD ""
    button1_url := config.button1_url.getD ""
    button2_text := config.button2_text.getD ""
    button2_url := config.button2_url.getD ""
    party_size := config.party_size.getD ""
    party_max := config.party_max.getD ""
    show_timestamp := config.show_timestamp.getD false
    timestamp_type := config.timestamp_type.getD "elapsed" }

/-- `DiscordRPApp.save_preset` (src/rp.py:1155–1169) writes
`json.dump(self.get_current_config(), f, indent=2)`; `load_preset`
(src/rp.py:1171–1184) reads `json.load(f)` and calls
`self.apply_config(preset)`.  `json.dump` followed by `json.load` on a
dictionary of strings and booleans is the identity, so the preset file
itself is modelled as the dictionary: saving yields the snapshot and
loading a saved file applies exactly that snapshot. -/
def save_preset (s : AppState) : PresetDict := get_current_config s

/-- `DiscordRPApp.load_preset` applied to a parsed preset dictionary. -/
def load_preset (s : AppState) (preset : PresetDict) : AppState :=
  apply_config s preset

/-- Loop guard of `DiscordRPApp.keep_alive` (src/rp.py:1139–1142):
`while self.running and self.connected: time.sleep(15)`. -/
def keep_alive_guard (s : AppState) : Bool := s.running && s.connected

/-! ## Helper lemmas -/

theorem pyTake_length (n : Nat) (s : String) :
    (pyTake n s).length = min n s.length := by
  cases s with
  | mk data => simp [pyTake, String.length]

theorem pyTake_of_length_le (n : Nat) (s : String) (h : s.length ≤ n) :
    pyTake n s = s := by
  cases s with
  | mk data =>
    simp only [String.length] at h
    simp [pyTake, List.take_of_length_le h]

/-- Inversion of the payload built by `update_presence`: whenever the
call reaches `self.rpc.update(**kwargs)`, every non-party field of the
payload is determined by the configuration as stated. -/
theorem update_presence_sent_inv (s : AppState) (now : Nat) (p : Payload)
    (h : update_presence s now = .sent p) :
    p.details = (if ¬ pyBlank s.details then some (pyStrip s.details) else none) ∧
    p.state = (if ¬ pyBlank s.state then some (pyStrip s.state) else none) ∧
    p.large_image = (if ¬ pyBlank s.large_key then some (pyStrip s.large_key) else none) ∧
    p.large_text =
      (if ¬ pyBlank s.large_key ∧ ¬ pyBlank s.large_text then some (pyStrip s.large_text) else none) ∧
    p.small_image = (if ¬ pyBlank s.small_key then some (pyStrip s.small_key) else none) ∧
    p.small_text =
      (if ¬ pyBlank s.small_key ∧ ¬ pyBlank s.small_text then some (pyStrip s.small_text) else none) ∧
    p.start =
      (if s.show_timestamp ∧ s.timestamp_type = "elapsed" then some s.start_timestamp else none) ∧
    p.end_ts =
      (if s.show_timestamp ∧ ¬ s.timestamp_type = "elapsed" then some (now + 3600) else none) ∧
    p.buttons = (if (updButtons s).isEmpty then none else some (updButtons s)) := by
  simp only [update_presence] at h
  split at h
  · simp at h
  · split at h
    · simp at h
    · rename_i heq
      injection h with h
      subst h
      by_cases hb : (updButtons s).isEmpty <;>
        by_cases ht : s.show_timestamp = true <;>
          by_cases he : s.timestamp_type = "elapsed" <;>
            simp [hb, ht, he]

/-! ## Claims -/

/-- C8: calling `update_presence` while the session is disconnected
(`self.connected` false) takes the guard branch: a warning dialog is
shown, no payload is built, and the external client is never called. -/
theorem C8_update_while_disconnected (s : AppState) (now : Nat)
    (h : s.connected = false) :
    update_presence s now = .notConnected := by
  simp only [update_presence]
  rw [if_pos]
  exact Or.inl (by simp [h])

theorem C8_update_while_disconnected_witness :
    update_presence { } 0 = .notConnected :=
  C8_update_while_disconnected { } 0 rfl

/-- C1 counterexample: with `party_size = "2"` and `party_max = ""`
(exactly one blank) on a connected session, `update_presence` raises no
validation error and still calls the external client — the claimed
"fails with ValidationError and issues no call" is false here. -/
theorem C1_counterexample :
    update_presence { party_size := "2", party_max := "", connected := true, rpc := some () } 0
      ≠ .invalidParty ∧
    update_presence { party_size := "2", party_max := "", connected := true, rpc := some () } 0
      = .sent { } := by
  constructor
  · decide
  · decide

/-- C1 (amended): when exactly one of `party_size`/`party_max` is blank
after stripping, the guarded party block is skipped entirely: no
validation error is raised, the update is still sent to the external
client, and the payload simply omits the party field. -/
theorem C1_one_sided_party_sent_without_party (s : AppState) (now : Nat)
    (hc : s.connected = true) (hr : s.rpc ≠ none)
    (hx : pyBlank s.party_size ≠ pyBlank s.party_max) :
    ∃ p, update_presence s now = .sent p ∧ p.party_size = none := by
  simp only [update_presence]
  rw [if_neg (by simp [hc, hr])]
  have hcond : ¬ (¬ pyBlank s.party_size = true ∧ ¬ pyBlank s.party_max = true) := by
    rintro ⟨h1, h2⟩
    rw [Bool.not_eq_true] at h1 h2
    exact hx (h1.trans h2.symm)
  rw [if_neg hcond]
  refine ⟨_, rfl, ?_⟩
  by_cases hb : (updButtons s).isEmpty <;>
    by_cases ht : s.show_timestamp = true <;>
      by_cases he : s.timestamp_type = "elapsed" <;>
        simp [hb, ht, he]

theorem C1_one_sided_party_sent_without_party_witness :
    ∃ p, update_presence
      { party_size := "2", party_max := "", connected := true, rpc := some () } 0
      = .sent p ∧ p.party_size = none :=
  C1_one_sided_party_sent_without_party
    { party_size := "2", party_max := "", connected := true, rpc := some () } 0
    rfl (by decide) (by decide)

/-- C5: when both party fields are non-blank but at least one does not
parse as an integer, the `except ValueError` handler runs: a warning is
shown and the method returns before `self.rpc.update` and before
`save_last_config`, so nothing is forwarded and no state is changed. -/
theorem C5_nonnumeric_party_aborts (s : AppState) (now : Nat)
    (hc : s.connected = true) (hr : s.rpc ≠ none)
    (h1 : pyBlank s.party_size = false) (h2 : pyBlank s.party_max = false)
    (hp : pyInt s.party_size = none ∨ pyInt s.party_max = none) :
    update_presence s now = .invalidParty := by
  simp only [update_presence]
  rw [if_neg (by simp [hc, hr])]
  rw [if_pos ⟨by simp [h1], by simp [h2]⟩]
  cases hA : pyInt s.party_size with
  | none => rfl
  | some a =>
    cases hB : pyInt s.party_max with
    | none => rfl
    | some b =>
      rcases hp with hp | hp
      · rw [hA] at hp; exact absurd hp (by simp)
      · rw [hB] at hp; exact absurd hp (by simp)

theorem C5_nonnumeric_party_aborts_witness :
    update_presence
      { party_size := "2", party_max := "x", connected := true, rpc := some () } 0
      = .invalidParty :=
  C5_nonnumeric_party_aborts
    { party_size := "2", party_max := "x", connected := true, rpc := some () } 0
    rfl (by decide) (by decide) (by decide) (Or.inr (by decide))

/-- C2: in every payload that reaches the external client, an image
text field is present only when its paired image key is non-blank after
stripping — and then the paired image key field is present as well. -/
theorem C2_image_text_requires_key (s : AppState) (now : Nat) (p : Payload)
    (h : update_presence s now = .sent p) :
    (p.large_text.isSome → p.large_image.isSome ∧ pyBlank s.large_key = false) ∧
    (p.small_text.isSome → p.small_image.isSome ∧ pyBlank s.small_key = false) := by
  obtain ⟨-, -, hli, hlt, hsi, hst, -, -, -⟩ := update_presence_sent_inv s now p h
  constructor
  · intro hx
    rw [hlt] at hx
    by_cases hk : pyBlank s.large_key = true
    · simp [hk] at hx
    · exact ⟨by rw [hli]; simp [hk], by simpa using hk⟩
  · intro hx
    rw [hst] at hx
    by_cases hk : pyBlank s.small_key = true
    · simp [hk] at hx
    · exact ⟨by rw [hsi]; simp [hk], by simpa using hk⟩

theorem C2_image_text_requires_key_witness :
    ((some "t" : Option String).isSome →
      (some "k" : Option String).isSome ∧ pyBlank "k" = false) ∧
    ((some "st" : Option String).isSome →
      (some "sk" : Option String).isSome ∧ pyBlank "sk" = false) :=
  C2_image_text_requires_key
    { large_key := "k", large_text := "t", small_key := "sk", small_text := "st",
      connected := true, rpc := some () } 0
    { large_image := some "k", large_text := some "t",
      small_image := some "sk", small_text := some "st" }
    (by decide)

/-- C7: with `show_timestamp` set, the payload carries
`start = start_timestamp` in "elapsed" mode and `end = now + 3600`
otherwise; with it unset, neither timestamp field is present. -/
theorem C7_timestamp_fields (s : AppState) (now : Nat) (p : Payload)
    (h : update_presence s now = .sent p) :
    (s.show_timestamp = true → s.timestamp_type = "elapsed" →
      p.start = some s.start_timestamp ∧ p.end_ts = none) ∧
    (s.show_timestamp = true → s.timestamp_type ≠ "elapsed" →
      p.start = none ∧ p.end_ts = some (now + 3600)) ∧
    (s.show_timestamp = false → p.start = none ∧ p.end_ts = none) := by
  obtain ⟨-, -, -, -, -, -, hs, he, -⟩ := update_presence_sent_inv s now p h
  refine ⟨fun h1 h2 => ?_, fun h1 h2 => ?_, fun h1 => ?_⟩ <;>
    rw [hs, he] <;> simp [h1, *]

theorem C7_timestamp_fields_witness :
    (true = true → "elapsed" = "elapsed" →
      some 42 = some 42 ∧ (none : Option Nat) = none) ∧
    (true = true → "elapsed" ≠ "elapsed" →
      (some 42 : Option Nat) = none ∧ (none : Option Nat) = some (7 + 3600)) ∧
    (true = false → (some 42 : Option Nat) = none ∧ (none : Option Nat) = none) :=
  C7_timestamp_fields
    { show_timestamp := true, timestamp_type := "elapsed", start_timestamp := 42,
      connected := true, rpc := some () } 7
    { start := some 42 }
    (by decide)

/-- C6: a button slot is included only if both its label and URL are
non-blank after stripping; an included label is the stripped label
truncated to 32 characters (so a 40-character label becomes 32
characters and a label of at most 32 characters is unchanged); the
buttons array is omitted entirely when no slot qualifies. -/
theorem C6_buttons (s : AppState) (now : Nat) (p : Payload)
    (h : update_presence s now = .sent p) :
    (p.buttons = none ↔
      ¬ (¬ pyBlank s.button1_text = true ∧ ¬ pyBlank s.button1_url = true) ∧
      ¬ (¬ pyBlank s.button2_text = true ∧ ¬ pyBlank s.button2_url = true)) ∧
    (∀ bs, p.buttons = some bs → ∀ b ∈ bs,
      ((¬ pyBlank s.button1_text = true ∧ ¬ pyBlank s.button1_url = true) ∧
        b = ⟨pyTake 32 (pyStrip s.button1_text), pyStrip s.button1_url⟩) ∨
      ((¬ pyBlank s.button2_text = true ∧ ¬ pyBlank s.button2_url = true) ∧
        b = ⟨pyTake 32 (pyStrip s.button2_text), pyStrip s.button2_url⟩)) ∧
    ((¬ pyBlank s.button1_text = true ∧ ¬ pyBlank s.button1_url = true) →
      ∃ bs, p.buttons = some bs ∧
        (⟨pyTake 32 (pyStrip s.button1_text), pyStrip s.button1_url⟩ : RPButton) ∈ bs) ∧
    ((¬ pyBlank s.button2_text = true ∧ ¬ pyBlank s.button2_url = true) →
      ∃ bs, p.buttons = some bs ∧
        (⟨pyTake 32 (pyStrip s.button2_text), pyStrip s.button2_url⟩ : RPButton) ∈ bs) ∧
    (∀ bs, p.buttons = some bs → ∀ b ∈ bs, b.label.length ≤ 32) ∧
    (∀ t : String, (pyStrip t).length = 40 → (pyTake 32 (pyStrip t)).length = 32) ∧
    (∀ t : String, (pyStrip t).length ≤ 32 → pyTake 32 (pyStrip t) = pyStrip t) := by
  obtain ⟨-, -, -, -, -, -, -, -, hb⟩ := update_presence_sent_inv s now p h
  have hmem : ∀ b ∈ updButtons s,
      ((¬ pyBlank s.button1_text = true ∧ ¬ pyBlank s.button1_url = true) ∧
        b = ⟨pyTake 32 (pyStrip s.button1_text), pyStrip s.button1_url⟩) ∨
      ((¬ pyBlank s.button2_text = true ∧ ¬ pyBlank s.button2_url = true) ∧
        b = ⟨pyTake 32 (pyStrip s.button2_text), pyStrip s.button2_url⟩) := by
    intro b hbmem
    unfold updButtons at hbmem
    rcases List.mem_append.mp hbmem with h1 | h2
    · left
      by_cases c1 : ¬ pyBlank s.button1_text = true ∧ ¬ pyBlank s.button1_url = true
      · rw [if_pos c1] at h1
        exact ⟨c1, by simpa using h1⟩
      · rw [if_neg c1] at h1
        exact absurd h1 (List.not_mem_nil b)
    · right
      by_cases c2 : ¬ pyBlank s.button2_text = true ∧ ¬ pyBlank s.button2_url = true
      · rw [if_pos c2] at h2
        exact ⟨c2, by simpa using h2⟩
      · rw [if_neg c2] at h2
        exact absurd h2 (List.not_mem_nil b)
  refine ⟨?_, ?_, ?_, ?_, ?_, ?_, ?_⟩
  · rw [hb]
    by_cases c1 : ¬ pyBlank s.button1_text = true ∧ ¬ pyBlank s.button1_url = true <;>
      by_cases c2 : ¬ pyBlank s.button2_text = true ∧ ¬ pyBlank s.button2_url = true <;>
        simp [updButtons, c1, c2]
  · intro bs hbs b hbmem
    rw [hb] at hbs
    by_cases hempty : (updButtons s).isEmpty
    · simp [hempty] at hbs
    · simp [hempty] at hbs
      exact hmem b (hbs ▸ hbmem)
  · intro c1
    rw [hb]
    have : ¬ (updButtons s).isEmpty := by simp [updButtons, c1]
    refine ⟨updButtons s, by simp [this], ?_⟩
    simp [updButtons, c1]
  · intro c2
    rw [hb]
    have : ¬ (updButtons s).isEmpty := by
      by_cases c1 : ¬ pyBlank s.button1_text = true ∧ ¬ pyBlank s.button1_url = true <;>
        simp [updButtons, c1, c2]
    refine ⟨updButtons s, by simp [this], ?_⟩
    simp [updButtons, c2]
  · intro bs hbs b hbmem
    rw [hb] at hbs
    by_cases hempty : (updButtons s).isEmpty
    · simp [hempty] at hbs
    · simp [hempty] at hbs
      rcases hmem b (hbs ▸ hbmem) with ⟨-, hbe⟩ | ⟨-, hbe⟩ <;>
        · subst hbe
          simpa using le_trans (le_of_eq (pyTake_length 32 _)) (min_le_left _ _)
  · intro t ht
    rw [pyTake_length, ht]
    decide
  · intro t ht
    exact pyTake_of_length_le 32 _ ht

theorem C6_buttons_witness :
    ((none : Option (List RPButton)) = none ↔
      ¬ (¬ pyBlank "" = true ∧ ¬ pyBlank "" = true) ∧
      ¬ (¬ pyBlank "" = true ∧ ¬ pyBlank "" = true)) ∧
    (∀ bs, (none : Option (List RPButton)) = some bs → ∀ b ∈ bs,
      ((¬ pyBlank "" = true ∧ ¬ pyBlank "" = true) ∧
        b = ⟨pyTake 32 (pyStrip ""), pyStrip ""⟩) ∨
      ((¬ pyBlank "" = true ∧ ¬ pyBlank "" = true) ∧
        b = ⟨pyTake 32 (pyStrip ""), pyStrip ""⟩)) ∧
    ((¬ pyBlank "" = true ∧ ¬ pyBlank "" = true) →
      ∃ bs, (none : Option (List RPButton)) = some bs ∧
        (⟨pyTake 32 (pyStrip ""), pyStrip ""⟩ : RPButton) ∈ bs) ∧
    ((¬ pyBlank "" = true ∧ ¬ pyBlank "" = true) →
      ∃ bs, (none : Option (List RPButton)) = some bs ∧
        (⟨pyTake 32 (pyStrip ""), pyStrip ""⟩ : RPButton) ∈ bs) ∧
    (∀ bs, (none : Option (List RPButton)) = some bs → ∀ b ∈ bs, b.label.length ≤ 32) ∧
    (∀ t : String, (pyStrip t).length = 40 → (pyTake 32 (pyStrip t)).length = 32) ∧
    (∀ t : String, (pyStrip t).length ≤ 32 → pyTake 32 (pyStrip t) = pyStrip t) :=
  C6_buttons { connected := true, rpc := some () } 0 { } (by decide)

/-- C3: saving the current configuration as a preset and loading that
preset back restores every stored field — the thirteen entry fields plus
`show_timestamp` and `timestamp_type` — regardless of the state the
preset is loaded into. -/
theorem C3_preset_roundtrip (a b : AppState) :
    (load_preset b (save_preset a)).client_id = a.client_id ∧
    (load_preset b (save_preset a)).details = a.details ∧
    (load_preset b (save_preset a)).state = a.state ∧
    (load_preset b (save_preset a)).large_key = a.large_key ∧
    (load_preset b (save_preset a)).large_text = a.large_text ∧
    (load_preset b (save_preset a)).small_key = a.small_key ∧
    (load_preset b (save_preset a)).small_text = a.small_text ∧
    (load_preset b (save_preset a)).button1_text = a.button1_text ∧
    (load_preset b (save_preset a)).button1_url = a.button1_url ∧
    (load_preset b (save_preset a)).button2_text = a.button2_text ∧
    (load_preset b (save_preset a)).button2_url = a.button2_url ∧
    (load_preset b (save_preset a)).party_size = a.party_size ∧
    (load_preset b (save_preset a)).party_max = a.party_max ∧
    (load_preset b (save_preset a)).show_timestamp = a.show_timestamp ∧
    (load_preset b (save_preset a)).timestamp_type = a.timestamp_type :=
  ⟨rfl, rfl, rfl, rfl, rfl, rfl, rfl, rfl, rfl, rfl, rfl, rfl, rfl, rfl, rfl⟩

/-- C10: applying a preset dictionary never fails, whatever subset of
keys it carries: each of the thirteen entry fields whose key is absent
is set to the empty string, `show_timestamp` defaults to `False`, and
`timestamp_type` defaults to `"elapsed"`. -/
theorem C10_apply_config_defaults (s : AppState) (config : PresetDict) :
    (config.client_id = none → (apply_config s config).client_id = "") ∧
    (config.details = none → (apply_config s config).details = "") ∧
    (config.state = none → (apply_config s config).state = "") ∧
    (config.large_key = none → (apply_config s config).large_key = "") ∧
    (config.large_text = none → (apply_config s config).large_text = "") ∧
    (config.small_key = none → (apply_config s config).small_key = "") ∧
    (config.small_text = none → (apply_config s config).small_text = "") ∧
    (config.button1_text = none → (apply_config s config).button1_text = "") ∧
    (config.button1_url = none → (apply_config s config).button1_url = "") ∧
    (config.button2_text = none → (apply_config s config).button2_text = "") ∧
    (config.button2_url = none → (apply_config s config).button2_url = "") ∧
    (config.party_size = none → (apply_config s config).party_size = "") ∧
    (config.party_max = none → (apply_config s config).party_max = "") ∧
    (config.show_timestamp = none → (apply_config s config).show_timestamp = false) ∧
    (config.timestamp_type = none → (apply_config s config).timestamp_type = "elapsed") := by
  refine ⟨?_, ?_, ?_, ?_, ?_, ?_, ?_, ?_, ?_, ?_, ?_, ?_, ?_, ?_, ?_⟩ <;>
    · intro hk
      simp [apply_config, hk]

theorem C10_apply_config_defaults_witness :
    (apply_config { connected := true } { }).client_id = "" ∧
    (apply_config { connected := true } { }).show_timestamp = false ∧
    (apply_config { connected := true } { }).timestamp_type = "elapsed" := by
  obtain ⟨h1, -, -, -, -, -, -, -, -, -, -, -, -, h14, h15⟩ :=
    C10_apply_config_defaults { connected := true } { }
  exact ⟨h1 rfl, h14 rfl, h15 rfl⟩

/-- C4 counterexample: from a connected session whose `close()` raises,
`disconnect` does not transition to Disconnected: the handler runs
before `connected`/`rpc` are reassigned, so the flag stays `True` and
the handle stays set (the raised error itself is swallowed). -/
theorem C4_counterexample :
    (disconnect { connected := true, rpc := some (), running := true } true).1.connected = true ∧
    (disconnect { connected := true, rpc := some (), running := true } true).1.rpc = some () := by
  decide

/-- C4 (amended): `disconnect` always stops the keep-alive loop
(`running` cleared, so the loop guard is false) and never propagates an
error to the caller — a throwing `close()` is caught and shown as a
dialog.  When `close()` is not invoked or does not throw, the session
transitions to Disconnected (`connected` false, handle cleared); but
when `close()` throws, `connected` and `rpc` keep their previous
values. -/
theorem C4_disconnect_behavior (s : AppState) (ct : Bool) :
    (disconnect s ct).1.running = false ∧
    keep_alive_guard (disconnect s ct).1 = false ∧
    (¬ (s.rpc ≠ none ∧ s.connected = true) →
      (disconnect s ct).2 = .ok ∧
      (disconnect s ct).1.connected = false ∧ (disconnect s ct).1.rpc = none) ∧
    (ct = false →
      (disconnect s ct).2 = .ok ∧
      (disconnect s ct).1.connected = false ∧ (disconnect s ct).1.rpc = none) ∧
    ((s.rpc ≠ none ∧ s.connected = true) → ct = true →
      (disconnect s ct).2 = .errorShown "close failed" ∧
      (disconnect s ct).1.connected = s.connected ∧ (disconnect s ct).1.rpc = s.rpc) := by
  unfold disconnect keep_alive_guard
  by_cases hc : s.rpc ≠ none ∧ s.connected = true <;>
    cases ct <;> simp [hc]

theorem C4_disconnect_behavior_witness :
    (disconnect { connected := true, rpc := some (), running := true } true).1.running = false ∧
    keep_alive_guard (disconnect { connected := true, rpc := some (), running := true } true).1
      = false ∧
    (disconnect { connected := true, rpc := some (), running := true } true).2
      = .errorShown "close failed" := by
  have h := C4_disconnect_behavior { connected := true, rpc := some (), running := true } true
  exact ⟨h.1, h.2.1, (h.2.2.2.2 ⟨by decide, rfl⟩ rfl).1⟩

/-- C9: after a `disconnect` whose close did not throw, the session is
Disconnected; a second `disconnect` from that state does not invoke
`close()` (its guard `self.rpc and self.connected` is false), raises
nothing, and leaves the session Disconnected with the handle cleared. -/
theorem C9_disconnect_twice (s : AppState) (ct : Bool) :
    (disconnect (disconnect s false).1 ct).2 = .ok ∧
    (disconnect (disconnect s false).1 ct).1.connected = false ∧
    (disconnect (disconnect s false).1 ct).1.rpc = none := by
  unfold disconnect
  by_cases hc : s.rpc ≠ none ∧ s.connected = true <;> simp [hc]
